import Mathlib

/-!
Shallow embedding of the RocketFeasibilityEngine core
(`src/server/analysis-engine.ts`, `src/server/openai-client.ts`,
`src/server/storage.ts`, shared schema in `src/unnamed/part_001`).

Numeric values are modelled as exact rationals (`ℚ`); the floating-point
haversine distance is modelled twice: the warning/scoring pipeline is
parameterised by an arbitrary distance function `QDist` (standing for the
numeric value the float computation produced), while the great-circle formula
itself is embedded over the reals for its algebraic properties.
External effects (the Overpass POI provider, the OpenAI narrative provider,
`randomUUID`, `new Date`) are passed in as explicit parameters.
-/

/-- Warning hazard category, from `zoneValidationSchema` in the shared schema. -/
inductive WarningType where
  | airport
  | school
  | military
  | urban_dense
  | restricted
  | other
deriving DecidableEq, Repr

/-- Overall zone severity, from `zoneValidationSchema`. -/
inductive Severity where
  | safe
  | caution
  | danger
deriving DecidableEq, Repr

/-- Feasibility status tiers, from `feasibilityScoreSchema`. -/
inductive FSStatus where
  | feasible
  | caution
  | not_recommended
deriving DecidableEq, Repr

/-- Rocket category, from the shared schema enums. -/
inductive RocketCategory where
  | model
  | industrial
deriving DecidableEq, Repr

/-- Model rocket project type, from the shared schema enums. -/
inductive ModelRocketType where
  | hobby
  | solo_project
  | team_project
deriving DecidableEq, Repr

/-- Safety level, from the shared schema enums. -/
inductive SafetyLevel where
  | beginner
  | intermediate
  | advanced
deriving DecidableEq, Repr

/-- A single zone warning (`zoneValidationSchema.warnings` entries). -/
structure Warning where
  type : WarningType
  message : String
  distance : Option ℚ := none
deriving DecidableEq, Repr

/-- Result of `validateZone` (`zoneValidationSchema`). -/
structure ZoneValidation where
  isValid : Bool
  warnings : List Warning
  severity : Severity
deriving DecidableEq, Repr

/-- A feasibility score (`feasibilityScoreSchema`). -/
structure FeasibilityScore where
  score : ℚ
  status : FSStatus
  details : String
deriving DecidableEq, Repr

/-- Input location (`locationSchema`). -/
structure Location where
  latitude : ℚ
  longitude : ℚ
  country : Option String := none
  city : Option String := none
  state : Option String := none
  displayName : Option String := none
deriving DecidableEq, Repr

/-- Rocket configuration (`rocketConfigSchema`). -/
structure RocketConfig where
  category : RocketCategory
  modelType : Option ModelRocketType := none
  safetyLevel : Option SafetyLevel := none
deriving DecidableEq, Repr

/-- Resources category (`resourcesAnalysisSchema`). -/
structure ResourcesAnalysis where
  materials : FeasibilityScore
  expertise : FeasibilityScore
  facilities : FeasibilityScore
  overall : FeasibilityScore
deriving DecidableEq, Repr

/-- Legal category (`legalAnalysisSchema`). -/
structure LegalAnalysis where
  permits : FeasibilityScore
  regulations : FeasibilityScore
  restrictions : FeasibilityScore
  overall : FeasibilityScore
deriving DecidableEq, Repr

/-- Geographical category (`geographicalAnalysisSchema`). -/
structure GeographicalAnalysis where
  terrain : FeasibilityScore
  weather : FeasibilityScore
  accessibility : FeasibilityScore
  overall : FeasibilityScore
deriving DecidableEq, Repr

/-- Geopolitical category (`geopoliticalAnalysisSchema`). -/
structure GeopoliticalAnalysis where
  stability : FeasibilityScore
  cooperation : FeasibilityScore
  risks : FeasibilityScore
  overall : FeasibilityScore
deriving DecidableEq, Repr

/-- Timing category (`timingAnalysisSchema`): `optimalWindow` is a narrative
string, not a score. -/
structure TimingAnalysis where
  seasonality : FeasibilityScore
  currentConditions : FeasibilityScore
  optimalWindow : String
  overall : FeasibilityScore
deriving DecidableEq, Repr

/-- Practicality category (`practicalityAnalysisSchema`). -/
structure PracticalityAnalysis where
  cost : FeasibilityScore
  timeline : FeasibilityScore
  successProbability : FeasibilityScore
  overall : FeasibilityScore
deriving DecidableEq, Repr

/-- The complete analysis record (`analysisResultSchema`). -/
structure AnalysisResult where
  id : String
  location : Location
  rocketConfig : RocketConfig
  zoneValidation : ZoneValidation
  resources : ResourcesAnalysis
  legal : LegalAnalysis
  geographical : GeographicalAnalysis
  geopolitical : GeopoliticalAnalysis
  timing : TimingAnalysis
  practicality : PracticalityAnalysis
  overallScore : ℚ
  recommendation : String
  createdAt : String
deriving DecidableEq, Repr

/-- Does the character list `pat` occur at the head of `s`? -/
def leadsWith : List Char → List Char → Bool
  | [], _ => true
  | _ :: _, [] => false
  | p :: ps, c :: cs => p == c && leadsWith ps cs

/-- Does the character list `pat` occur anywhere inside `s`? -/
def hasSub (pat : List Char) : List Char → Bool
  | [] => pat.isEmpty
  | c :: cs => leadsWith pat (c :: cs) || hasSub pat cs

/-- JavaScript `String.prototype.includes`. -/
def strIncludes (s pat : String) : Bool :=
  hasSub pat.data s.data

/-- JavaScript string-or-default, `s || d` (empty string is falsy). -/
def jsOrStr (s d : String) : String :=
  if s == "" then d else s

/-- JavaScript option-or-default, `o || d` for a possibly-missing string field. -/
def jsOrD (o : Option String) (d : String) : String :=
  match o with
  | some s => if s == "" then d else s
  | none => d

/-- JavaScript truthiness of a possibly-missing string (`undefined` and `""`
are falsy). -/
def jsStrTruthy (o : Option String) : Bool :=
  match o with
  | some s => s != ""
  | none => false

/-- JavaScript `Math.round`: round half toward positive infinity. -/
def jsRound (q : ℚ) : ℚ :=
  ((⌊q + 1 / 2⌋ : ℤ) : ℚ)

/-- Digit characters of a natural number value accumulated from the left. -/
def digitsToNat (l : List Char) : ℕ :=
  l.foldl (fun a c => a * 10 + (c.toNat - 48)) 0

/-- Leading decimal-digit run of a character list, or `none` when the list
does not start with a digit (JavaScript `parseInt` yielding `NaN`). -/
def leadDigits (l : List Char) : Option ℕ :=
  let ds := l.takeWhile Char.isDigit
  if ds.isEmpty then none else some (digitsToNat ds)

/-- JavaScript `parseInt` on a decimal string; `none` models `NaN`. -/
def parseIntJS (s : String) : Option ℤ :=
  match s.data with
  | '-' :: rest => (leadDigits rest).map (fun n => -(n : ℤ))
  | '+' :: rest => (leadDigits rest).map (fun n => (n : ℤ))
  | l => (leadDigits l).map (fun n => (n : ℤ))

/-- Insert a comma after every third digit of a reversed digit list. -/
def commaGroupRev : List Char → List Char
  | a :: b :: c :: d :: rest => a :: b :: c :: ',' :: commaGroupRev (d :: rest)
  | l => l

/-- JavaScript `Number.prototype.toLocaleString` for integers (comma digit
grouping, as in an en-US locale). -/
def toLocaleStr (n : ℤ) : String :=
  let ds := (toString n.natAbs).data
  let grouped := (commaGroupRev ds.reverse).reverse
  (if n < 0 then "-" else "") ++ String.mk grouped

/-- Left-pad a string with zeros to the given length. -/
def padZeros (width : ℕ) (s : String) : String :=
  String.mk (List.replicate (width - s.length) '0') ++ s

/-- JavaScript `Number.prototype.toFixed` for a nonnegative rational:
round to `digits` decimals, ties toward the larger value. -/
def toFixedPos (digits : ℕ) (q : ℚ) : String :=
  let n : ℕ := (⌊q * (10 : ℚ) ^ digits + 1 / 2⌋).toNat
  if digits == 0 then toString n
  else
    let ip := n / 10 ^ digits
    let fp := n % 10 ^ digits
    toString ip ++ "." ++ padZeros digits (toString fp)

/-- JavaScript `Number.prototype.toFixed` for any rational. -/
def toFixedQ (digits : ℕ) (q : ℚ) : String :=
  if q < 0 then "-" ++ toFixedPos digits (-q) else toFixedPos digits q

/-- An element of the Overpass POI provider response (`OSMElement` in
`analysis-engine.ts`). -/
structure OSMElement where
  type : String
  id : ℕ
  lat : Option ℚ := none
  lon : Option ℚ := none
  center : Option (ℚ × ℚ) := none
  tags : List (String × String) := []
deriving DecidableEq, Repr

/-- The Overpass POI provider response (`OSMResponse`). -/
structure OSMResponse where
  elements : List OSMElement
deriving DecidableEq, Repr

/-- Stand-in for the numeric value computed by the floating-point
`calculateDistance(lat1, lon1, lat2, lon2)`. -/
def QDist : Type := ℚ → ℚ → ℚ → ℚ → ℚ

/-- Tag lookup, `element.tags?.key`. -/
def lookupTag (e : OSMElement) (k : String) : Option String :=
  (e.tags.find? (fun p => p.1 == k)).map (fun p => p.2)

/-- JavaScript `element.lat ?? element.center?.lat`. -/
def elemLat (e : OSMElement) : Option ℚ :=
  match e.lat with
  | some v => some v
  | none => e.center.map (fun p => p.1)

/-- JavaScript `element.lon ?? element.center?.lon`. -/
def elemLon (e : OSMElement) : Option ℚ :=
  match e.lon with
  | some v => some v
  | none => e.center.map (fun p => p.2)

/-- Composite provider identity, `` `${element.type}-${element.id}` ``. -/
def elemKey (e : OSMElement) : String :=
  e.type ++ "-" ++ toString e.id

/-- JavaScript truthiness of the `military` tag (`element.tags?.military`). -/
def jsTruthyTag (o : Option String) : Bool :=
  match o with
  | some s => s != ""
  | none => false

/-- Classification of a single (deduplicated) facility by tag and two-tier
distance thresholds, `validateZone` lines 147-208 of `analysis-engine.ts`. -/
def classifyElement (name : String) (d : ℚ) (e : OSMElement) : List Warning :=
  if lookupTag e "aeroway" == some "aerodrome" || lookupTag e "aeroway" == some "airport" then
    if d < 8000 then
      [{ type := WarningType.airport,
         message := "CRITICAL: Inside or very close to " ++ name ++
           " airport. Rocket launches are strictly prohibited within " ++
           toFixedQ 1 (8000 / 1000) ++ "km of airports.",
         distance := some d }]
    else if d < 15000 then
      [{ type := WarningType.airport,
         message := "Near " ++ name ++ " airport (" ++ toFixedQ 1 (d / 1000) ++
           "km away). Airspace restrictions apply. FAA/CAA approval required.",
         distance := some d }]
    else []
  else if lookupTag e "amenity" == some "school" || lookupTag e "amenity" == some "university"
      || lookupTag e "amenity" == some "college" then
    if d < 500 then
      [{ type := WarningType.school,
         message := "CRITICAL: Inside or adjacent to " ++ name ++
           ". Launching rockets near schools poses extreme safety risks and is prohibited.",
         distance := some d }]
    else if d < 2000 then
      [{ type := WarningType.school,
         message := "Near " ++ name ++ " (" ++ toFixedQ 2 (d / 1000) ++
           "km away). Exercise extreme caution and ensure proper safety protocols.",
         distance := some d }]
    else []
  else if jsTruthyTag (lookupTag e "military") || lookupTag e "landuse" == some "military" then
    if d < 5000 then
      [{ type := WarningType.military,
         message := "CRITICAL: Inside or near " ++ name ++
           " military zone. Unauthorized launches in military areas are strictly prohibited.",
         distance := some d }]
    else if d < 10000 then
      [{ type := WarningType.military,
         message := "Near " ++ name ++ " military facility (" ++ toFixedQ 1 (d / 1000) ++
           "km away). Security restrictions may apply.",
         distance := some d }]
    else []
  else if lookupTag e "amenity" == some "hospital" then
    if d < 1500 then
      [{ type := WarningType.other,
         message := "Near " ++ name ++ " hospital (" ++ toFixedQ 2 (d / 1000) ++
           "km away). Consider impact on emergency services and patient safety.",
         distance := some d }]
    else []
  else []

/-- One iteration of the facility loop of `validateZone`: skip elements
without a position, deduplicate by composite identity, then classify.
The state is (warnings so far, processed identity set). -/
def hazardStep (dist : QDist) (loc : Location) (acc : List Warning × List String)
    (e : OSMElement) : List Warning × List String :=
  match elemLat e, elemLon e with
  | some elat, some elon =>
    let d := dist loc.latitude loc.longitude elat elon
    let name := jsOrD (lookupTag e "name") "Unnamed facility"
    let eid := elemKey e
    if acc.2.contains eid then acc
    else (acc.1 ++ classifyElement name d e, acc.2 ++ [eid])
  | _, _ => acc

/-- The facility loop of `validateZone` (lines 126-209), as a fold. -/
def hazardFold (dist : QDist) (loc : Location) (es : List OSMElement) :
    List Warning × List String :=
  es.foldl (hazardStep dist loc) ([], [])

/-- Warnings produced by the facility loop of `validateZone`. -/
def hazardLoop (dist : QDist) (loc : Location) (es : List OSMElement) : List Warning :=
  (hazardFold dist loc es).1

/-- The urban-area filter of `validateZone` (line 221). -/
def isUrbanPlace (e : OSMElement) : Bool :=
  lookupTag e "place" == some "city" || lookupTag e "place" == some "town"
    || lookupTag e "place" == some "suburb"

/-- Population comparison: `none` models `NaN`, whose comparisons are false. -/
def popGT (p : Option ℤ) (n : ℤ) : Bool :=
  match p with
  | some v => decide (n < v)
  | none => false

/-- Rendering of the parsed population (`population.toLocaleString()`). -/
def popStr (p : Option ℤ) : String :=
  match p with
  | some v => toLocaleStr v
  | none => "NaN"

/-- One iteration of the urban-density loop of `validateZone` (lines 225-260).
Note this loop has no identity deduplication. -/
def urbanStep (dist : QDist) (loc : Location) (acc : List Warning)
    (e : OSMElement) : List Warning :=
  match elemLat e, elemLon e with
  | some elat, some elon =>
    let d := dist loc.latitude loc.longitude elat elon
    let population : Option ℤ :=
      match lookupTag e "population" with
      | some s => if s == "" then some 0 else parseIntJS s
      | none => some 0
    let name := jsOrD (lookupTag e "name") "Urban area"
    if popGT population 100000 && decide (d < 10000) then
      acc ++ [{ type := WarningType.urban_dense,
                message := "Inside or near dense urban area of " ++ name ++ " (population: " ++
                  popStr population ++ "). Rocket launches in populated areas pose significant safety risks.",
                distance := some d }]
    else if popGT population 50000 && decide (d < 5000) then
      acc ++ [{ type := WarningType.urban_dense,
                message := "Within populated area of " ++ name ++ " (" ++ toFixedQ 0 d ++
                  "m from center). Consider safety protocols for nearby residents.",
                distance := some d }]
    else if decide (d < 2000) && lookupTag e "place" == some "suburb" then
      acc ++ [{ type := WarningType.urban_dense,
                message := "Within residential suburb of " ++ name ++
                  ". Ensure compliance with local ordinances regarding rocket activities.",
                distance := some d }]
    else acc
  | _, _ => acc

/-- The urban-density loop of `validateZone` (lines 220-261). -/
def urbanLoop (dist : QDist) (loc : Location) (es : List OSMElement) : List Warning :=
  (es.filter isUrbanPlace).foldl (urbanStep dist loc) []

/-- The provider-unavailable warning message of `validateZone`. -/
def unableMsg : String :=
  "Unable to verify restricted zones due to data service unavailability. Exercise extreme caution and manually verify airspace and local restrictions before any launch activities."

/-- The high-latitude warning message of `validateZone`. -/
def highLatMsg : String :=
  "High latitude location may have challenging weather conditions and limited infrastructure."

/-- Critical-violation test on one warning (`validateZone` lines 263-269).
JavaScript `!w.distance` is true both for a missing distance and for a
distance of 0, in which case the message is sniffed for "CRITICAL". -/
def wCritical (w : Warning) : Bool :=
  match w.distance with
  | none => strIncludes w.message "CRITICAL"
  | some d =>
    if d == 0 then strIncludes w.message "CRITICAL"
    else (w.type == WarningType.airport && decide (d < 8000))
      || (w.type == WarningType.military && decide (d < 5000))
      || (w.type == WarningType.school && decide (d < 500))

/-- Data-service warning test (`validateZone` line 271). -/
def wDataService (w : Warning) : Bool :=
  strIncludes w.message "Unable to verify restricted zones"

/-- The final warnings list assembled by `validateZone`: provider-failure
warning, facility loop, high-latitude check, urban-density loop, in
discovery order. -/
def zoneWarningsList (dist : QDist) (loc : Location) (osmData : Option OSMResponse) :
    List Warning :=
  let w0 : List Warning :=
    match osmData with
    | none => [{ type := WarningType.other, message := unableMsg, distance := none }]
    | some _ => []
  let w1 := w0 ++ (match osmData with
    | some data => hazardLoop dist loc data.elements
    | none => [])
  let w2 := w1 ++ (if (60 : ℚ) < |loc.latitude| then
    [{ type := WarningType.other, message := highLatMsg, distance := none }] else [])
  w2 ++ (match osmData with
    | some data => urbanLoop dist loc data.elements
    | none => [])

/-- The validity verdict of `validateZone` (line 273): no critical violation,
no data-service warning, and zero airport/military/school warnings. -/
def zoneIsValid (w3 : List Warning) : Bool :=
  !(w3.any wCritical) && !(w3.any wDataService) &&
    ((w3.filter (fun w => w.type == WarningType.airport || w.type == WarningType.military
      || w.type == WarningType.school)).length == 0)

/-- The severity verdict of `validateZone` (lines 275-279). -/
def zoneSeverity (w3 : List Warning) : Severity :=
  if w3.any wCritical then Severity.danger
  else if decide (0 < w3.length) || w3.any wDataService then Severity.caution
  else Severity.safe

/-- The live-provider `validateZone` of `analysis-engine.ts` (lines 112-286).
The provider response is a parameter: `none` models an unreachable or
erroring Overpass API; the distance function stands for the floating-point
`calculateDistance`. -/
def validateZone (dist : QDist) (loc : Location) (osmData : Option OSMResponse) :
    ZoneValidation :=
  let w3 := zoneWarningsList dist loc osmData
  { isValid := zoneIsValid w3, warnings := w3, severity := zoneSeverity w3 }

/-- Degrees to radians, `(deg * Math.PI) / 180`. -/
noncomputable def toRad (deg : ℝ) : ℝ :=
  deg * Real.pi / 180

/-- JavaScript `Math.atan2(y, x)` over the reals. -/
noncomputable def atan2 (y x : ℝ) : ℝ :=
  if 0 < x then Real.arctan (y / x)
  else if x < 0 ∧ 0 ≤ y then Real.arctan (y / x) + Real.pi
  else if x < 0 ∧ y < 0 then Real.arctan (y / x) - Real.pi
  else if x = 0 ∧ 0 < y then Real.pi / 2
  else if x = 0 ∧ y < 0 then -(Real.pi / 2)
  else 0

/-- The haversine intermediate `a` of `calculateDistance`. -/
noncomputable def haversineA (lat1 lon1 lat2 lon2 : ℝ) : ℝ :=
  let phi1 := toRad lat1
  let phi2 := toRad lat2
  let dPhi := toRad (lat2 - lat1)
  let dLam := toRad (lon2 - lon1)
  Real.sin (dPhi / 2) * Real.sin (dPhi / 2) +
    Real.cos phi1 * Real.cos phi2 * (Real.sin (dLam / 2) * Real.sin (dLam / 2))

/-- The great-circle distance `calculateDistance` of `analysis-engine.ts`
(lines 17-30), over the reals (the source computes in floating point). -/
noncomputable def calculateDistance (lat1 lon1 lat2 lon2 : ℝ) : ℝ :=
  let a := haversineA lat1 lon1 lat2 lon2
  let c := 2 * atan2 (Real.sqrt a) (Real.sqrt (1 - a))
  6371000 * c

/-- A reference anchor point with a baseline score. -/
structure Anchor where
  lat : ℚ
  lon : ℚ
  score : ℚ
deriving DecidableEq, Repr

/-- The fixed developed-city anchor table of `assessDevelopmentLevel`. -/
def developedCities : List Anchor :=
  [⟨40.7128, -74.0060, 95⟩,
   ⟨51.5074, -0.1278, 95⟩,
   ⟨35.6762, 139.6503, 95⟩,
   ⟨48.8566, 2.3522, 90⟩,
   ⟨-33.8688, 151.2093, 90⟩,
   ⟨1.3521, 103.8198, 92⟩]

/-- The fixed stable-region anchor table of `assessPoliticalStability`. -/
def stableRegions : List Anchor :=
  [⟨60, 10, 95⟩,
   ⟨46, 8, 95⟩,
   ⟨52, 5, 90⟩,
   ⟨35.6, 139.6, 88⟩,
   ⟨-33.8, 151.2, 90⟩,
   ⟨43.6, -79.3, 92⟩,
   ⟨38.9, -77.0, 85⟩]

/-- The nearest-anchor loop shared by both heuristic estimators:
state is (closest score so far, minimum distance so far), with `none`
standing for the initial `Infinity`. -/
def nearestStep (dist : QDist) (loc : Location) (acc : ℚ × Option ℚ)
    (c : Anchor) : ℚ × Option ℚ :=
  let d := dist loc.latitude loc.longitude c.lat c.lon
  match acc.2 with
  | none => (c.score, some d)
  | some m => if d < m then (c.score, some d) else acc

/-- Nearest-anchor interpolation shared by `assessDevelopmentLevel` and
`assessPoliticalStability`: linear decay from the closest anchor score to
the default over `denom` meters. -/
def nearestScore (dist : QDist) (loc : Location) (defaultScore denom : ℚ)
    (anchors : List Anchor) : ℚ :=
  let r := anchors.foldl (nearestStep dist loc) (defaultScore, none)
  let distanceFactor : ℚ :=
    match r.2 with
    | none => 0
    | some m => max 0 (1 - m / denom)
  jsRound (r.1 * distanceFactor + defaultScore * (1 - distanceFactor))

/-- `assessDevelopmentLevel` of `analysis-engine.ts` (lines 488-511). -/
def assessDevelopmentLevel (dist : QDist) (loc : Location) : ℚ :=
  nearestScore dist loc 60 5000000 developedCities

/-- `assessPoliticalStability` of `analysis-engine.ts` (lines 543-567). -/
def assessPoliticalStability (dist : QDist) (loc : Location) : ℚ :=
  nearestScore dist loc 65 8000000 stableRegions

/-- Result of `assessClimate`. -/
structure ClimateFactors where
  weatherScore : ℚ
  weatherDetails : String
deriving DecidableEq, Repr

/-- `assessClimate` of `analysis-engine.ts` (lines 513-541). -/
def assessClimate (loc : Location) : ClimateFactors :=
  let lat := |loc.latitude|
  if lat < 47 / 2 then
    ⟨70, "Tropical climate with consistent temperatures but potential for heavy rainfall and storms during wet season."⟩
  else if lat < 40 then
    ⟨85, "Temperate climate generally favorable for launches with seasonal variations to consider."⟩
  else if lat < 60 then
    ⟨65, "Mid-latitude location with variable weather patterns. Winter conditions may limit launch windows."⟩
  else
    ⟨45, "High-latitude location with extreme weather conditions and limited favorable launch windows."⟩

/-- Five optional free-text fields of a successfully parsed narrative-provider
JSON response (a missing field is `none`). -/
structure AIOutcome where
  resourcesInsight : Option String := none
  legalInsight : Option String := none
  geographicalInsight : Option String := none
  geopoliticalInsight : Option String := none
  recommendation : Option String := none
deriving DecidableEq, Repr

/-- The five insight strings `analyzeLocationWithAI` resolves with. -/
structure AIInsights where
  resourcesInsight : String
  legalInsight : String
  geographicalInsight : String
  geopoliticalInsight : String
  recommendation : String
deriving DecidableEq, Repr

/-- The location payload handed to `analyzeLocationWithAI`. -/
structure LocationData where
  latitude : ℚ
  longitude : ℚ
  country : Option String := none
  city : Option String := none
  state : Option String := none
  displayName : Option String := none
  rocketType : String
  zoneWarnings : List String
deriving DecidableEq, Repr

/-- `analyzeLocationWithAI` of `src/server/openai-client.ts` (first variant):
`outcome = some r` models a successful API call whose JSON parsed to `r`
(field-level `|| default` applied); `outcome = none` models any thrown error
(unreachable service, bad JSON), answered by the deterministic
location-aware fallback strings of the `catch` block. -/
def analyzeLocationWithAI (ld : LocationData) (outcome : Option AIOutcome) : AIInsights :=
  match outcome with
  | some result =>
    { resourcesInsight := jsOrD result.resourcesInsight "Analysis unavailable"
      legalInsight := jsOrD result.legalInsight "Analysis unavailable"
      geographicalInsight := jsOrD result.geographicalInsight "Analysis unavailable"
      geopoliticalInsight := jsOrD result.geopoliticalInsight "Analysis unavailable"
      recommendation := jsOrD result.recommendation "Unable to generate recommendation" }
  | none =>
    let locationDesc := jsOrD ld.displayName
      (toFixedQ 2 ld.latitude ++ ", " ++ toFixedQ 2 ld.longitude)
    let hasWarnings := decide (0 < ld.zoneWarnings.length)
    { resourcesInsight := "Standard assessment for " ++ locationDesc ++ ". " ++
        (if jsStrTruthy ld.country then "In " ++ ld.country.getD "" ++ ", " else "") ++
        "resource availability depends on local infrastructure and proximity to aerospace suppliers."
      legalInsight := if hasWarnings then
          "Zone restrictions detected at this location. Regulatory approval required. Consult local aviation authorities and obtain necessary permits before any launch activities."
        else
          "Standard regulatory requirements apply. Check local aviation regulations and obtain necessary permits for " ++
            ld.rocketType ++ " launches."
      geographicalInsight := "Location at " ++ toFixedQ 4 ld.latitude ++ "°, " ++
        toFixedQ 4 ld.longitude ++ "°. Geographical assessment based on regional climate patterns and terrain characteristics."
      geopoliticalInsight := if jsStrTruthy ld.country then
          "Regional analysis for " ++ ld.country.getD "" ++
            ". Political and regulatory environment affects launch feasibility and permit requirements."
        else
          "Regional stability and regulatory framework should be evaluated for long-term operations."
      recommendation := if hasWarnings then
          "This location has zone restrictions that significantly impact launch feasibility. Review all safety warnings and consult with local authorities before proceeding."
        else
          "Standard feasibility applies to this location. Verify local regulations and ensure all safety protocols are followed for " ++
            ld.rocketType ++ " activities." }

/-- The enum string of a model rocket type, as interpolated by the source. -/
def modelTypeStr : ModelRocketType → String
  | ModelRocketType.hobby => "hobby"
  | ModelRocketType.solo_project => "solo_project"
  | ModelRocketType.team_project => "team_project"

/-- The enum string of a safety level, as interpolated by the source. -/
def safetyLevelStr : SafetyLevel → String
  | SafetyLevel.beginner => "beginner"
  | SafetyLevel.intermediate => "intermediate"
  | SafetyLevel.advanced => "advanced"

/-- `createFeasibilityScore` of `analysis-engine.ts` (lines 288-294): the
status is derived from the score alone. -/
def createFeasibilityScore (score : ℚ) (details : String) : FeasibilityScore :=
  { score := score
    status := if 70 ≤ score then FSStatus.feasible
      else if 40 ≤ score then FSStatus.caution
      else FSStatus.not_recommended
    details := details }

/-- The status tier the spec says a score implies (feasible at 70 and above,
caution at 40 and above, not_recommended below 40). -/
def scoreStatus (score : ℚ) : FSStatus :=
  if 70 ≤ score then FSStatus.feasible
  else if 40 ≤ score then FSStatus.caution
  else FSStatus.not_recommended

/-- `analyzeLocation` of `analysis-engine.ts` (lines 296-486).
Effects are explicit parameters: `dist` stands for the floating-point
distance, `osmData` for the Overpass response, `aiOutcome` for the
narrative-provider outcome, `currentMonth` for `new Date().getMonth()`,
`newId` for `randomUUID()` and `createdAtStr` for
`new Date().toISOString()`. -/
def analyzeLocation (dist : QDist) (location : Location) (rocketConfig : RocketConfig)
    (osmData : Option OSMResponse) (aiOutcome : Option AIOutcome)
    (currentMonth : ℕ) (newId createdAtStr : String) : AnalysisResult :=
  let zoneValidation := validateZone dist location osmData
  let isModelRocket := rocketConfig.category == RocketCategory.model
  let developmentLevel := assessDevelopmentLevel dist location
  let climateFactors := assessClimate location
  let politicalStability := assessPoliticalStability dist location
  let rocketTypeLabel := if isModelRocket then
      "Model Rocket (" ++ modelTypeStr (rocketConfig.modelType.getD ModelRocketType.hobby) ++
        ", " ++ safetyLevelStr (rocketConfig.safetyLevel.getD SafetyLevel.beginner) ++ " level)"
    else "Industrial Rocket"
  let aiInsights := analyzeLocationWithAI
    { latitude := location.latitude
      longitude := location.longitude
      country := location.country
      city := location.city
      state := location.state
      displayName := location.displayName
      rocketType := rocketTypeLabel
      zoneWarnings := zoneValidation.warnings.map (fun w => w.message) } aiOutcome
  let materials := createFeasibilityScore
    (min 95 (60 + developmentLevel * (3 / 10) + (if isModelRocket then 20 else 0)))
    aiInsights.resourcesInsight
  let expertise := createFeasibilityScore
    (min 95 (50 + developmentLevel * (2 / 5) +
      (if rocketConfig.safetyLevel == some SafetyLevel.advanced then 15 else 0)))
    aiInsights.resourcesInsight
  let facilities := createFeasibilityScore
    (min 95 (40 + developmentLevel * (1 / 2) + (if isModelRocket then 25 else 0)))
    aiInsights.resourcesInsight
  let resources : ResourcesAnalysis :=
    { materials := materials
      expertise := expertise
      facilities := facilities
      overall := createFeasibilityScore
        (jsRound ((materials.score + expertise.score + facilities.score) / 3))
        aiInsights.resourcesInsight }
  let permits := createFeasibilityScore
    (max 30 (70 - (zoneValidation.warnings.length : ℚ) * 15 +
      (if isModelRocket then 10 else -20)))
    aiInsights.legalInsight
  let regulations := createFeasibilityScore
    (max 25 (65 + politicalStability * (1 / 5) - (if isModelRocket then 0 else 15)))
    aiInsights.legalInsight
  let restrictions := createFeasibilityScore
    (if zoneValidation.severity == Severity.safe then 85
      else if zoneValidation.severity == Severity.caution then 55 else 20)
    aiInsights.legalInsight
  let legal : LegalAnalysis :=
    { permits := permits
      regulations := regulations
      restrictions := restrictions
      overall := createFeasibilityScore
        (jsRound ((permits.score + regulations.score + restrictions.score) / 3))
        aiInsights.legalInsight }
  let terrain := createFeasibilityScore
    (min 90 (70 + (if |location.latitude| < 30 then 10 else -5)))
    aiInsights.geographicalInsight
  let weather := createFeasibilityScore climateFactors.weatherScore
    aiInsights.geographicalInsight
  let accessibility := createFeasibilityScore
    (min 95 (55 + developmentLevel * (7 / 20)))
    aiInsights.geographicalInsight
  let geographical : GeographicalAnalysis :=
    { terrain := terrain
      weather := weather
      accessibility := accessibility
      overall := createFeasibilityScore
        (jsRound ((terrain.score + weather.score + accessibility.score) / 3))
        aiInsights.geographicalInsight }
  let stability := createFeasibilityScore politicalStability
    aiInsights.geopoliticalInsight
  let cooperation := createFeasibilityScore
    (min 90 (50 + politicalStability * (2 / 5)))
    aiInsights.geopoliticalInsight
  let risks := createFeasibilityScore
    (min 95 (85 - (100 - politicalStability) * (3 / 10)))
    aiInsights.geopoliticalInsight
  let geopolitical : GeopoliticalAnalysis :=
    { stability := stability
      cooperation := cooperation
      risks := risks
      overall := createFeasibilityScore
        (jsRound ((stability.score + cooperation.score + risks.score) / 3))
        aiInsights.geopoliticalInsight }
  let isSummerNorthern := decide (5 ≤ currentMonth) && decide (currentMonth ≤ 8)
  let isSummer := if (0 : ℚ) ≤ location.latitude then isSummerNorthern else !isSummerNorthern
  let seasonality := createFeasibilityScore (if isSummer then 80 else 60)
    (if isSummer then
      "Current season generally favorable for launch activities with stable weather patterns."
    else
      "Off-season may present weather challenges. Consider scheduling for warmer months.")
  let currentConditions := createFeasibilityScore 75
    "Real-time conditions should be verified closer to launch date. Monitor weather forecasts."
  let timing : TimingAnalysis :=
    { seasonality := seasonality
      currentConditions := currentConditions
      optimalWindow := if (0 : ℚ) ≤ location.latitude then
          "June through September offers the most stable conditions for this location."
        else
          "December through March provides optimal weather windows in the Southern Hemisphere."
      overall := createFeasibilityScore
        (jsRound ((seasonality.score + currentConditions.score) / 2))
        "Timing assessment based on seasonal patterns and current conditions." }
  let cost := createFeasibilityScore
    (if isModelRocket then 85 else max 30 (40 + developmentLevel * (3 / 10)))
    (if isModelRocket then
      "Model rockets are highly cost-effective, with kits starting under $100."
    else
      "Industrial rockets require significant capital investment in millions of dollars.")
  let timeline := createFeasibilityScore
    (if isModelRocket then 90 else 50 + politicalStability * (3 / 10))
    (if isModelRocket then
      "Model rocket projects can be completed in weeks to months."
    else
      "Industrial rocket development typically requires 2-5 years from planning to launch.")
  let successProbability := createFeasibilityScore
    (max 35 (60 +
      (if rocketConfig.safetyLevel == some SafetyLevel.advanced then 15
        else if rocketConfig.safetyLevel == some SafetyLevel.intermediate then 5 else -5) +
      (if zoneValidation.severity == Severity.safe then 10 else -10) +
      (if isModelRocket then 10 else -15)))
    "Success probability based on experience level, location suitability, and project scope."
  let practicality : PracticalityAnalysis :=
    { cost := cost
      timeline := timeline
      successProbability := successProbability
      overall := createFeasibilityScore
        (jsRound ((cost.score + timeline.score + successProbability.score) / 3))
        "Practical feasibility considering cost, timeline, and success factors." }
  let overallScore := jsRound
    ((resources.overall.score + legal.overall.score + geographical.overall.score +
      geopolitical.overall.score + timing.overall.score + practicality.overall.score) / 6)
  let recommendation := jsOrStr aiInsights.recommendation
    "Unable to generate specific recommendation. Please consult with local authorities and aerospace experts."
  { id := newId
    location := location
    rocketConfig := rocketConfig
    zoneValidation := zoneValidation
    resources := resources
    legal := legal
    geographical := geographical
    geopolitical := geopolitical
    timing := timing
    practicality := practicality
    overallScore := overallScore
    recommendation := recommendation
    createdAt := createdAtStr }

/-- Every `FeasibilityScore` carried by an `AnalysisResult`. -/
def resultScores (r : AnalysisResult) : List FeasibilityScore :=
  [r.resources.materials, r.resources.expertise, r.resources.facilities, r.resources.overall,
   r.legal.permits, r.legal.regulations, r.legal.restrictions, r.legal.overall,
   r.geographical.terrain, r.geographical.weather, r.geographical.accessibility,
   r.geographical.overall,
   r.geopolitical.stability, r.geopolitical.cooperation, r.geopolitical.risks,
   r.geopolitical.overall,
   r.timing.seasonality, r.timing.currentConditions, r.timing.overall,
   r.practicality.cost, r.practicality.timeline, r.practicality.successProbability,
   r.practicality.overall]

/-- JavaScript `Map.prototype.set`: update in place when the key exists,
append otherwise. -/
def mapSet (m : List (String × AnalysisResult)) (k : String) (v : AnalysisResult) :
    List (String × AnalysisResult) :=
  if m.any (fun p => p.1 == k) then
    m.map (fun p => if p.1 == k then (k, v) else p)
  else m ++ [(k, v)]

/-- `MemStorage.saveAnalysis` of `src/server/storage.ts` (first variant). -/
def memSaveAnalysis (st : List (String × AnalysisResult)) (a : AnalysisResult) :
    List (String × AnalysisResult) :=
  mapSet st a.id a

/-- `MemStorage.getAllAnalyses`: `Array.from(this.analyses.values())`, i.e.
the values in `Map` insertion order. -/
def memGetAllAnalyses (st : List (String × AnalysisResult)) : List AnalysisResult :=
  st.map (fun p => p.2)

/-- A row of the `saved_analyses` table relevant to listing (the insertion
timestamp is modelled as a natural number supplied at save time,
standing for the database `defaultNow()`). -/
structure SavedRow where
  analysisId : String
  sessionId : Option String
  createdAt : ℕ
  analysisData : AnalysisResult
deriving DecidableEq, Repr

/-- `DatabaseStorage.saveAnalysis` of `src/server/storage.ts` (second
variant): inserts one row with a `null` session id. -/
def dbSaveAnalysis (st : List SavedRow) (a : AnalysisResult) (now : ℕ) : List SavedRow :=
  st ++ [{ analysisId := a.id, sessionId := none, createdAt := now, analysisData := a }]

/-- Insertion into a list sorted by descending `createdAt` (the model of the
SQL `ORDER BY created_at DESC`). -/
def insertDesc (r : SavedRow) : List SavedRow → List SavedRow
  | [] => [r]
  | x :: xs => if x.createdAt ≤ r.createdAt then r :: x :: xs else x :: insertDesc r xs

/-- Sort rows by descending `createdAt`. -/
def sortDescByCreated (l : List SavedRow) : List SavedRow :=
  l.foldr insertDesc []

/-- `DatabaseStorage.getAllAnalyses`: optional session filter (a falsy —
absent or empty — session id disables the filter, as in the source), then
`ORDER BY created_at DESC`. -/
def dbGetAllAnalyses (st : List SavedRow) (sessionId : Option String) : List AnalysisResult :=
  let filtered := match sessionId with
    | some sid => if sid == "" then st else st.filter (fun r => r.sessionId == some sid)
    | none => st
  (sortDescByCreated filtered).map (fun r => r.analysisData)

theorem zoneIsValid_not_danger (w3 : List Warning) (h : zoneIsValid w3 = true) :
    zoneSeverity w3 ≠ Severity.danger := by
  unfold zoneIsValid at h
  simp only [Bool.and_eq_true, Bool.not_eq_true'] at h
  obtain ⟨⟨h1, -⟩, -⟩ := h
  unfold zoneSeverity
  rw [h1]
  simp only [Bool.false_eq_true, if_false]
  split <;> simp

/-- C10: for every distance function, coordinate and provider response, the
`ZoneValidation` returned by `validateZone` satisfies the cross-field
invariant that `isValid = true` implies the severity is not `danger`. -/
theorem validateZone_isValid_not_danger (dist : QDist) (loc : Location)
    (osmData : Option OSMResponse)
    (h : (validateZone dist loc osmData).isValid = true) :
    (validateZone dist loc osmData).severity ≠ Severity.danger :=
  zoneIsValid_not_danger (zoneWarningsList dist loc osmData) h

theorem validateZone_isValid_not_danger_witness :
    (validateZone (fun _ _ _ _ => 0) { latitude := 0, longitude := 0 } (some ⟨[]⟩)).isValid = true
    ∧ (validateZone (fun _ _ _ _ => 0) { latitude := 0, longitude := 0 }
        (some ⟨[]⟩)).severity ≠ Severity.danger :=
  ⟨by decide, validateZone_isValid_not_danger _ _ _ (by decide)⟩

/-- C2: when the POI provider is unreachable or returns no data
(`osmData = none`), the returned `ZoneValidation` carries exactly one
`other`-category warning referencing the verification failure, has severity
`caution`, and is invalid — the failure is never silently ignored. -/
theorem validateZone_provider_failure (dist : QDist) (loc : Location) :
    ((validateZone dist loc none).warnings.filter
      (fun w => w.type == WarningType.other && wDataService w)).length = 1
    ∧ (validateZone dist loc none).severity = Severity.caution
    ∧ (validateZone dist loc none).isValid = false := by
  unfold validateZone zoneWarningsList
  by_cases h : (60 : ℚ) < |loc.latitude|
  · simp only [if_pos h]
    exact ⟨by decide, by decide, by decide⟩
  · simp only [if_neg h]
    exact ⟨by decide, by decide, by decide⟩

/-- C7: for every coordinate with absolute latitude above 60 the result of
`validateZone` contains the `other`-category high-latitude warning, whatever
the provider returned (including a failure); and at absolute latitude
exactly 65 with no nearby hazards the result is exactly that single warning
with severity `caution`. -/
theorem validateZone_high_latitude (dist : QDist) (loc : Location)
    (osmData : Option OSMResponse) (h : (60 : ℚ) < |loc.latitude|) :
    (⟨WarningType.other, highLatMsg, none⟩ : Warning) ∈ (validateZone dist loc osmData).warnings
    ∧ (|loc.latitude| = 65 →
        (validateZone dist loc (some ⟨[]⟩)).warnings =
          [⟨WarningType.other, highLatMsg, none⟩]
        ∧ (validateZone dist loc (some ⟨[]⟩)).severity = Severity.caution) := by
  constructor
  · show _ ∈ zoneWarningsList dist loc osmData
    unfold zoneWarningsList
    simp [if_pos h]
  · intro _
    have hw : zoneWarningsList dist loc (some ⟨[]⟩) =
        [⟨WarningType.other, highLatMsg, none⟩] := by
      unfold zoneWarningsList hazardLoop hazardFold urbanLoop
      simp [if_pos h]
    constructor
    · show zoneWarningsList dist loc (some ⟨[]⟩) = _
      exact hw
    · show zoneSeverity (zoneWarningsList dist loc (some ⟨[]⟩)) = _
      rw [hw]
      decide

theorem validateZone_high_latitude_witness :
    (⟨WarningType.other, highLatMsg, none⟩ : Warning) ∈
      (validateZone (fun _ _ _ _ => 0) { latitude := 65, longitude := 0 } none).warnings
    ∧ ((65 : ℚ) = 65 →
        (validateZone (fun _ _ _ _ => 0) { latitude := 65, longitude := 0 }
          (some ⟨[]⟩)).warnings = [⟨WarningType.other, highLatMsg, none⟩]
        ∧ (validateZone (fun _ _ _ _ => 0) { latitude := 65, longitude := 0 }
            (some ⟨[]⟩)).severity = Severity.caution) := by
  have := validateZone_high_latitude (fun _ _ _ _ => 0)
    { latitude := 65, longitude := 0 } none (by norm_num)
  refine ⟨this.1, fun _ => this.2 (by norm_num)⟩

/-- C8: the embedded great-circle distance is symmetric in its two coordinate
arguments and vanishes on identical coordinates. -/
theorem calculateDistance_symm_self (lat1 lon1 lat2 lon2 p q : ℝ) :
    calculateDistance lat1 lon1 lat2 lon2 = calculateDistance lat2 lon2 lat1 lon1
    ∧ calculateDistance p q p q = 0 := by
  constructor
  · have ha : haversineA lat1 lon1 lat2 lon2 = haversineA lat2 lon2 lat1 lon1 := by
      simp only [haversineA, toRad]
      have hsin : ∀ u : ℝ, Real.sin (-u) * Real.sin (-u) = Real.sin u * Real.sin u := by
        intro u
        rw [Real.sin_neg]
        ring
      have e1 : (lat1 - lat2) * Real.pi / 180 / 2 = -((lat2 - lat1) * Real.pi / 180 / 2) := by
        ring
      have e2 : (lon1 - lon2) * Real.pi / 180 / 2 = -((lon2 - lon1) * Real.pi / 180 / 2) := by
        ring
      rw [e1, e2, hsin, hsin]
      ring
    simp only [calculateDistance, ha]
  · have ha0 : haversineA p q p q = 0 := by
      simp [haversineA, toRad, sub_self]
    simp [calculateDistance, ha0, atan2, Real.arctan_zero]

theorem leadsWith_append (pat l t : List Char) (h : leadsWith pat l = true) :
    leadsWith pat (l ++ t) = true := by
  induction pat generalizing l with
  | nil => simp [leadsWith]
  | cons p ps ih =>
    cases l with
    | nil => simp [leadsWith] at h
    | cons c cs =>
      simp only [List.cons_append, leadsWith, Bool.and_eq_true] at h ⊢
      exact ⟨h.1, ih cs h.2⟩

theorem hasSub_of_leadsWith (pat l : List Char) (h : leadsWith pat l = true) :
    hasSub pat l = true := by
  cases l with
  | nil =>
    cases pat with
    | nil => rfl
    | cons p ps => simp [leadsWith] at h
  | cons c cs => simp [hasSub, h]

theorem strIncludes_critical_airport (name x : String) :
    strIncludes ("CRITICAL: Inside or very close to " ++ name ++
      " airport. Rocket launches are strictly prohibited within " ++ x ++
      "km of airports.") "CRITICAL" = true := by
  unfold strIncludes
  simp only [String.data_append]
  apply hasSub_of_leadsWith
  apply leadsWith_append
  apply leadsWith_append
  apply leadsWith_append
  apply leadsWith_append
  decide

/-- Shared test fixtures for concrete witnesses. -/
def testLoc : Location := { latitude := 0, longitude := 0 }

/-- A provider record tagged as an aerodrome, used by concrete witnesses. -/
def testAirport : OSMElement :=
  { type := "node", id := 1, lat := some 1, lon := some 1,
    tags := [("aeroway", "aerodrome"), ("name", "Test Field")] }

/-- C1: for a provider response holding one airport/aerodrome facility, the
two-tier airport thresholds of `validateZone`: below 8,000 m the result is
`danger` and invalid with a warning whose message contains "CRITICAL"; in
[8,000 m, 15,000 m) a caution-tier airport warning is emitted and the result
is still invalid; at 15,000 m or more (and no high-latitude caveat) the
result is `safe` and valid. -/
theorem validateZone_airport_tiers (dist : QDist) (loc : Location) (e : OSMElement)
    (elat elon : ℚ)
    (hlat : elemLat e = some elat) (hlon : elemLon e = some elon)
    (haero : lookupTag e "aeroway" = some "aerodrome" ∨ lookupTag e "aeroway" = some "airport")
    (hplace : lookupTag e "place" = none) :
    (dist loc.latitude loc.longitude elat elon < 8000 →
      (validateZone dist loc (some ⟨[e]⟩)).severity = Severity.danger
      ∧ (validateZone dist loc (some ⟨[e]⟩)).isValid = false
      ∧ ∃ w ∈ (validateZone dist loc (some ⟨[e]⟩)).warnings,
          strIncludes w.message "CRITICAL" = true)
    ∧ (8000 ≤ dist loc.latitude loc.longitude elat elon
        ∧ dist loc.latitude loc.longitude elat elon < 15000 →
      (∃ w ∈ (validateZone dist loc (some ⟨[e]⟩)).warnings,
          w.type = WarningType.airport
          ∧ w.distance = some (dist loc.latitude loc.longitude elat elon))
      ∧ (validateZone dist loc (some ⟨[e]⟩)).isValid = false)
    ∧ (15000 ≤ dist loc.latitude loc.longitude elat elon ∧ |loc.latitude| ≤ 60 →
      (validateZone dist loc (some ⟨[e]⟩)).severity = Severity.safe
      ∧ (validateZone dist loc (some ⟨[e]⟩)).isValid = true) := by
  set d := dist loc.latitude loc.longitude elat elon with hdd
  set nm := jsOrD (lookupTag e "name") "Unnamed facility" with hnm
  have hfold : hazardLoop dist loc [e] = classifyElement nm d e := by
    unfold hazardLoop hazardFold
    simp [hazardStep, hlat, hlon, ← hdd, ← hnm]
  have hurb : urbanLoop dist loc [e] = [] := by
    unfold urbanLoop
    simp [isUrbanPlace, hplace]
  have hw3 : zoneWarningsList dist loc (some ⟨[e]⟩) =
      classifyElement nm d e ++
        (if (60 : ℚ) < |loc.latitude| then
          [⟨WarningType.other, highLatMsg, none⟩] else []) := by
    unfold zoneWarningsList
    simp [hfold, hurb]
  refine ⟨?_, ?_, ?_⟩
  · intro hlt
    have hcls : classifyElement nm d e =
        [⟨WarningType.airport,
          "CRITICAL: Inside or very close to " ++ nm ++
            " airport. Rocket launches are strictly prohibited within " ++
            toFixedQ 1 (8000 / 1000) ++ "km of airports.",
          some d⟩] := by
      rcases haero with h | h <;> simp [classifyElement, h, if_pos hlt]
    have hcrit : wCritical ⟨WarningType.airport,
        "CRITICAL: Inside or very close to " ++ nm ++
          " airport. Rocket launches are strictly prohibited within " ++
          toFixedQ 1 (8000 / 1000) ++ "km of airports.",
        some d⟩ = true := by
      unfold wCritical
      by_cases hd0 : (d == 0) = true
      · simp only [hd0, if_true]
        exact strIncludes_critical_airport nm (toFixedQ 1 (8000 / 1000))
      · simp only [hd0, if_false]
        simp [hlt]
    refine ⟨?_, ?_, ?_⟩
    · show zoneSeverity (zoneWarningsList dist loc (some ⟨[e]⟩)) = Severity.danger
      rw [hw3, hcls]
      simp [zoneSeverity, hcrit]
    · show zoneIsValid (zoneWarningsList dist loc (some ⟨[e]⟩)) = false
      rw [hw3, hcls]
      simp [zoneIsValid, hcrit]
    · refine ⟨⟨WarningType.airport,
        "CRITICAL: Inside or very close to " ++ nm ++
          " airport. Rocket launches are strictly prohibited within " ++
          toFixedQ 1 (8000 / 1000) ++ "km of airports.",
        some d⟩, ?_, strIncludes_critical_airport nm (toFixedQ 1 (8000 / 1000))⟩
      show _ ∈ zoneWarningsList dist loc (some ⟨[e]⟩)
      rw [hw3, hcls]
      exact List.mem_append_left _ (List.mem_singleton.mpr rfl)
  · rintro ⟨h8, h15⟩
    have hcls : classifyElement nm d e =
        [⟨WarningType.airport,
          "Near " ++ nm ++ " airport (" ++ toFixedQ 1 (d / 1000) ++
            "km away). Airspace restrictions apply. FAA/CAA approval required.",
          some d⟩] := by
      rcases haero with h | h <;>
        simp [classifyElement, h, if_neg (not_lt.mpr h8), if_pos h15]
    constructor
    · refine ⟨⟨WarningType.airport,
        "Near " ++ nm ++ " airport (" ++ toFixedQ 1 (d / 1000) ++
          "km away). Airspace restrictions apply. FAA/CAA approval required.",
        some d⟩, ?_, rfl, rfl⟩
      show _ ∈ zoneWarningsList dist loc (some ⟨[e]⟩)
      rw [hw3, hcls]
      exact List.mem_append_left _ (List.mem_singleton.mpr rfl)
    · show zoneIsValid (zoneWarningsList dist loc (some ⟨[e]⟩)) = false
      rw [hw3, hcls]
      unfold zoneIsValid
      by_cases hla : (60 : ℚ) < |loc.latitude| <;> simp [hla]
  · rintro ⟨h15, hla⟩
    have hcls : classifyElement nm d e = [] := by
      have h8 : ¬ d < 8000 := not_lt.mpr (le_trans (by norm_num) h15)
      have h15n : ¬ d < 15000 := not_lt.mpr h15
      rcases haero with h | h <;> simp [classifyElement, h, h8, h15n]
    have hw3e : zoneWarningsList dist loc (some ⟨[e]⟩) = [] := by
      rw [hw3, hcls]
      simp [not_lt.mpr hla]
    constructor
    · show zoneSeverity (zoneWarningsList dist loc (some ⟨[e]⟩)) = Severity.safe
      rw [hw3e]
      decide
    · show zoneIsValid (zoneWarningsList dist loc (some ⟨[e]⟩)) = true
      rw [hw3e]
      decide

theorem validateZone_airport_tiers_witness :
    ((validateZone (fun _ _ _ _ => 5000) testLoc (some ⟨[testAirport]⟩)).severity = Severity.danger
      ∧ (validateZone (fun _ _ _ _ => 5000) testLoc (some ⟨[testAirport]⟩)).isValid = false
      ∧ ∃ w ∈ (validateZone (fun _ _ _ _ => 5000) testLoc (some ⟨[testAirport]⟩)).warnings,
          strIncludes w.message "CRITICAL" = true)
    ∧ ((∃ w ∈ (validateZone (fun _ _ _ _ => 9000) testLoc (some ⟨[testAirport]⟩)).warnings,
          w.type = WarningType.airport ∧ w.distance = some 9000)
      ∧ (validateZone (fun _ _ _ _ => 9000) testLoc (some ⟨[testAirport]⟩)).isValid = false)
    ∧ ((validateZone (fun _ _ _ _ => 20000) testLoc (some ⟨[testAirport]⟩)).severity = Severity.safe
      ∧ (validateZone (fun _ _ _ _ => 20000) testLoc (some ⟨[testAirport]⟩)).isValid = true) := by
  have h1 := validateZone_airport_tiers (fun _ _ _ _ => 5000) testLoc testAirport 1 1
    (by decide) (by decide) (Or.inl (by decide)) (by decide)
  have h2 := validateZone_airport_tiers (fun _ _ _ _ => 9000) testLoc testAirport 1 1
    (by decide) (by decide) (Or.inl (by decide)) (by decide)
  have h3 := validateZone_airport_tiers (fun _ _ _ _ => 20000) testLoc testAirport 1 1
    (by decide) (by decide) (Or.inl (by decide)) (by decide)
  exact ⟨h1.1 (by decide), h2.2.1 ⟨by decide, by decide⟩, h3.2.2 ⟨by decide, by decide⟩⟩

theorem hazardStep_skip (dist : QDist) (loc : Location) (acc : List Warning × List String)
    (e' : OSMElement) (hkey : elemKey e' ∈ acc.2) :
    hazardStep dist loc acc e' = acc := by
  cases h1 : elemLat e' <;> cases h2 : elemLon e' <;> simp [hazardStep, h1, h2, hkey]

theorem hazardFold_dup (dist : QDist) (loc : Location) (es : List OSMElement)
    (e' : OSMElement) (hkey : elemKey e' ∈ (hazardFold dist loc es).2) :
    hazardFold dist loc (es ++ [e']) = hazardFold dist loc es := by
  unfold hazardFold
  rw [List.foldl_append]
  simp only [List.foldl_cons, List.foldl_nil]
  exact hazardStep_skip dist loc _ e' hkey

theorem urbanLoop_append_nonplace (dist : QDist) (loc : Location) (es : List OSMElement)
    (e' : OSMElement) (h : isUrbanPlace e' = false) :
    urbanLoop dist loc (es ++ [e']) = urbanLoop dist loc es := by
  unfold urbanLoop
  rw [List.filter_append]
  simp [h]

/-- C3 counterexample: the urban-density loop of `validateZone` has no
identity deduplication, so two identical city records (same provider type
and id) each contribute an `urban_dense` warning. -/
theorem validateZone_dup_urban_counterexample :
    ((validateZone (fun _ _ _ _ => 0) testLoc
      (some ⟨[⟨"node", 7, some 10, some 10, none,
        [("place", "city"), ("population", "200000"), ("name", "Bigcity")]⟩,
        ⟨"node", 7, some 10, some 10, none,
        [("place", "city"), ("population", "200000"), ("name", "Bigcity")]⟩]⟩)).warnings.filter
      (fun w => w.type == WarningType.urban_dense)).length = 2 := by
  decide

/-- C3 amended: appending a facility record whose composite identity was
already processed (and which is not a populated place) leaves the
`ZoneValidation` returned by `validateZone` unchanged — the facility loop
processes each distinct identity at most once; urban-place records are
exempt from this deduplication. -/
theorem validateZone_dedup_hazard (dist : QDist) (loc : Location) (es : List OSMElement)
    (e' : OSMElement) (hkey : elemKey e' ∈ (hazardFold dist loc es).2)
    (hurban : isUrbanPlace e' = false) :
    validateZone dist loc (some ⟨es ++ [e']⟩) = validateZone dist loc (some ⟨es⟩) := by
  unfold validateZone zoneWarningsList hazardLoop
  simp only [hazardFold_dup dist loc es e' hkey,
    urbanLoop_append_nonplace dist loc es e' hurban]

theorem validateZone_dedup_hazard_witness :
    elemKey testAirport ∈ (hazardFold (fun _ _ _ _ => 5000) testLoc [testAirport]).2
    ∧ validateZone (fun _ _ _ _ => 5000) testLoc (some ⟨[testAirport, testAirport]⟩)
      = validateZone (fun _ _ _ _ => 5000) testLoc (some ⟨[testAirport]⟩) :=
  ⟨by decide, validateZone_dedup_hazard _ _ [testAirport] testAirport (by decide) (by decide)⟩

/-- C4: in every `AnalysisResult` produced by `analyzeLocation`, the overall
score is the rounded mean of the six category overalls, and each category
overall is the rounded mean of its named sub-scores — except Timing, whose
overall averages only seasonality and currentConditions. -/
theorem analyzeLocation_rounded_means (dist : QDist) (loc : Location)
    (cfg : RocketConfig) (osmData : Option OSMResponse) (aiOutcome : Option AIOutcome)
    (currentMonth : ℕ) (newId createdAtStr : String) :
    (analyzeLocation dist loc cfg osmData aiOutcome currentMonth newId createdAtStr).overallScore
      = jsRound (((analyzeLocation dist loc cfg osmData aiOutcome currentMonth newId
          createdAtStr).resources.overall.score
        + (analyzeLocation dist loc cfg osmData aiOutcome currentMonth newId
          createdAtStr).legal.overall.score
        + (analyzeLocation dist loc cfg osmData aiOutcome currentMonth newId
          createdAtStr).geographical.overall.score
        + (analyzeLocation dist loc cfg osmData aiOutcome currentMonth newId
          createdAtStr).geopolitical.overall.score
        + (analyzeLocation dist loc cfg osmData aiOutcome currentMonth newId
          createdAtStr).timing.overall.score
        + (analyzeLocation dist loc cfg osmData aiOutcome currentMonth newId
          createdAtStr).practicality.overall.score) / 6)
    ∧ (analyzeLocation dist loc cfg osmData aiOutcome currentMonth newId
        createdAtStr).resources.overall.score
      = jsRound (((analyzeLocation dist loc cfg osmData aiOutcome currentMonth newId
          createdAtStr).resources.materials.score
        + (analyzeLocation dist loc cfg osmData aiOutcome currentMonth newId
          createdAtStr).resources.expertise.score
        + (analyzeLocation dist loc cfg osmData aiOutcome currentMonth newId
          createdAtStr).resources.facilities.score) / 3)
    ∧ (analyzeLocation dist loc cfg osmData aiOutcome currentMonth newId
        createdAtStr).legal.overall.score
      = jsRound (((analyzeLocation dist loc cfg osmData aiOutcome currentMonth newId
          createdAtStr).legal.permits.score
        + (analyzeLocation dist loc cfg osmData aiOutcome currentMonth newId
          createdAtStr).legal.regulations.score
        + (analyzeLocation dist loc cfg osmData aiOutcome currentMonth newId
          createdAtStr).legal.restrictions.score) / 3)
    ∧ (analyzeLocation dist loc cfg osmData aiOutcome currentMonth newId
        createdAtStr).geographical.overall.score
      = jsRound (((analyzeLocation dist loc cfg osmData aiOutcome currentMonth newId
          createdAtStr).geographical.terrain.score
        + (analyzeLocation dist loc cfg osmData aiOutcome currentMonth newId
          createdAtStr).geographical.weather.score
        + (analyzeLocation dist loc cfg osmData aiOutcome currentMonth newId
          createdAtStr).geographical.accessibility.score) / 3)
    ∧ (analyzeLocation dist loc cfg osmData aiOutcome currentMonth newId
        createdAtStr).geopolitical.overall.score
      = jsRound (((analyzeLocation dist loc cfg osmData aiOutcome currentMonth newId
          createdAtStr).geopolitical.stability.score
        + (analyzeLocation dist loc cfg osmData aiOutcome currentMonth newId
          createdAtStr).geopolitical.cooperation.score
        + (analyzeLocation dist loc cfg osmData aiOutcome currentMonth newId
          createdAtStr).geopolitical.risks.score) / 3)
    ∧ (analyzeLocation dist loc cfg osmData aiOutcome currentMonth newId
        createdAtStr).timing.overall.score
      = jsRound (((analyzeLocation dist loc cfg osmData aiOutcome currentMonth newId
          createdAtStr).timing.seasonality.score
        + (analyzeLocation dist loc cfg osmData aiOutcome currentMonth newId
          createdAtStr).timing.currentConditions.score) / 2)
    ∧ (analyzeLocation dist loc cfg osmData aiOutcome currentMonth newId
        createdAtStr).practicality.overall.score
      = jsRound (((analyzeLocation dist loc cfg osmData aiOutcome currentMonth newId
          createdAtStr).practicality.cost.score
        + (analyzeLocation dist loc cfg osmData aiOutcome currentMonth newId
          createdAtStr).practicality.timeline.score
        + (analyzeLocation dist loc cfg osmData aiOutcome currentMonth newId
          createdAtStr).practicality.successProbability.score) / 3) :=
  ⟨rfl, rfl, rfl, rfl, rfl, rfl, rfl⟩

theorem jsRound_le (q : ℚ) (n : ℤ) (h : q ≤ (n : ℚ)) : jsRound q ≤ (n : ℚ) := by
  unfold jsRound
  have h1 : ⌊q + 1 / 2⌋ ≤ n := by
    have h2 := Int.floor_le_floor (α := ℚ) (add_le_add_right h (1 / 2))
    rwa [Int.floor_int_add, show ⌊(1 / 2 : ℚ)⌋ = 0 by norm_num, add_zero] at h2
  exact_mod_cast h1

theorem le_jsRound (q : ℚ) (n : ℤ) (h : (n : ℚ) ≤ q) : (n : ℚ) ≤ jsRound q := by
  unfold jsRound
  have h1 : n ≤ ⌊q + 1 / 2⌋ := by
    have h2 := Int.floor_le_floor (α := ℚ) (add_le_add_right h (1 / 2))
    rwa [Int.floor_int_add, show ⌊(1 / 2 : ℚ)⌋ = 0 by norm_num, add_zero] at h2
  exact_mod_cast h1

theorem jsRound_nonneg (q : ℚ) (h : 0 ≤ q) : 0 ≤ jsRound q := by
  have := le_jsRound q 0 (by exact_mod_cast h)
  exact_mod_cast this

theorem jsRound_le100 (q : ℚ) (h : q ≤ 100) : jsRound q ≤ 100 := by
  have := jsRound_le q 100 (by exact_mod_cast h)
  exact_mod_cast this

theorem nearestFold_invariant (dist : QDist) (loc : Location) (lo hi : ℚ)
    (hdist : ∀ a b c d, 0 ≤ dist a b c d) (anchors : List Anchor) :
    (∀ a ∈ anchors, lo ≤ a.score ∧ a.score ≤ hi) →
    ∀ init : ℚ × Option ℚ, lo ≤ init.1 ∧ init.1 ≤ hi →
    (∀ m, init.2 = some m → 0 ≤ m) →
    ((lo ≤ (List.foldl (nearestStep dist loc) init anchors).1
      ∧ (List.foldl (nearestStep dist loc) init anchors).1 ≤ hi)
    ∧ ∀ m, (List.foldl (nearestStep dist loc) init anchors).2 = some m → 0 ≤ m) := by
  induction anchors with
  | nil =>
    intro _ init hinit hmin
    simpa using ⟨hinit, hmin⟩
  | cons a rest ih =>
    intro hanch init hinit hmin
    simp only [List.foldl_cons]
    have ha := hanch a (List.mem_cons_self _ _)
    have hstep : ((lo ≤ (nearestStep dist loc init a).1 ∧ (nearestStep dist loc init a).1 ≤ hi)
        ∧ ∀ m, (nearestStep dist loc init a).2 = some m → 0 ≤ m) := by
      rcases h2 : init.2 with _ | m0
      · simp only [nearestStep, h2]
        refine ⟨ha, fun m hm => ?_⟩
        cases hm
        exact hdist _ _ _ _
      · simp only [nearestStep, h2]
        split
        · refine ⟨ha, fun m hm => ?_⟩
          cases hm
          exact hdist _ _ _ _
        · exact ⟨hinit, fun m hm => hmin m (h2.trans (congrArg some (Option.some_inj.mp (h2.symm.trans hm))))⟩
    exact ih (fun x hx => hanch x (List.mem_cons_of_mem _ hx)) _ hstep.1 hstep.2

theorem nearestScore_bounds (dist : QDist) (loc : Location) (defaultScore denom : ℚ)
    (anchors : List Anchor) (lo hi : ℤ)
    (hdist : ∀ a b c d, 0 ≤ dist a b c d)
    (hanch : ∀ a ∈ anchors, (lo : ℚ) ≤ a.score ∧ a.score ≤ (hi : ℚ))
    (hdef : (lo : ℚ) ≤ defaultScore ∧ defaultScore ≤ (hi : ℚ))
    (hdenom : 0 < denom) :
    (lo : ℚ) ≤ nearestScore dist loc defaultScore denom anchors
    ∧ nearestScore dist loc defaultScore denom anchors ≤ (hi : ℚ) := by
  unfold nearestScore
  obtain ⟨⟨hr1, hr2⟩, hr3⟩ := nearestFold_invariant dist loc (lo : ℚ) (hi : ℚ) hdist anchors
    hanch (defaultScore, none) (by simpa using hdef) (by simp)
  rcases hdf : (List.foldl (nearestStep dist loc) (defaultScore, none) anchors).2 with _ | m
  · simp only [hdf]
    constructor
    · exact le_jsRound _ lo (by linarith [hdef.1])
    · exact jsRound_le _ hi (by linarith [hdef.2])
  · have hm : 0 ≤ m := hr3 m hdf
    simp only [hdf]
    have hdf0 : 0 ≤ max 0 (1 - m / denom) := le_max_left _ _
    have hdf1 : max 0 (1 - m / denom) ≤ 1 := by
      apply max_le
      · norm_num
      · have : 0 ≤ m / denom := div_nonneg hm (le_of_lt hdenom)
        linarith
    constructor
    · exact le_jsRound _ lo (by nlinarith [hr1, hdef.1, hdf0, hdf1])
    · exact jsRound_le _ hi (by nlinarith [hr2, hdef.2, hdf0, hdf1])

theorem assessDevelopmentLevel_bounds (dist : QDist) (loc : Location)
    (hdist : ∀ a b c d, 0 ≤ dist a b c d) :
    (60 : ℚ) ≤ assessDevelopmentLevel dist loc ∧ assessDevelopmentLevel dist loc ≤ 95 := by
  have h := nearestScore_bounds dist loc 60 5000000 developedCities 60 95 hdist
    (by decide) (by norm_num) (by norm_num)
  unfold assessDevelopmentLevel
  exact_mod_cast h

theorem assessPoliticalStability_bounds (dist : QDist) (loc : Location)
    (hdist : ∀ a b c d, 0 ≤ dist a b c d) :
    (65 : ℚ) ≤ assessPoliticalStability dist loc ∧ assessPoliticalStability dist loc ≤ 95 := by
  have h := nearestScore_bounds dist loc 65 8000000 stableRegions 65 95 hdist
    (by decide) (by norm_num) (by norm_num)
  unfold assessPoliticalStability
  exact_mod_cast h

/-- Boolean form of the spec's FeasibilityScore invariant: score within
[0, 100] and status exactly the tier implied by the score. -/
def scoreOk (fs : FeasibilityScore) : Bool :=
  decide (0 ≤ fs.score) && decide (fs.score ≤ 100) && (fs.status == scoreStatus fs.score)

theorem createFS_score (q : ℚ) (s : String) : (createFeasibilityScore q s).score = q := rfl

theorem scoreOk_createFS (q : ℚ) (s : String) (h0 : 0 ≤ q) (h1 : q ≤ 100) :
    scoreOk (createFeasibilityScore q s) = true := by
  unfold scoreOk createFeasibilityScore scoreStatus
  simp [h0, h1]

theorem minClamp_bounds (k x : ℚ) (hk0 : 0 ≤ k) (hk1 : k ≤ 100) (hx : 0 ≤ x) :
    0 ≤ min k x ∧ min k x ≤ 100 :=
  ⟨le_min hk0 hx, le_trans (min_le_left _ _) hk1⟩

theorem maxClamp_bounds (k x : ℚ) (hk0 : 0 ≤ k) (hk1 : k ≤ 100) (hx : x ≤ 100) :
    0 ≤ max k x ∧ max k x ≤ 100 :=
  ⟨le_trans hk0 (le_max_left _ _), max_le hk1 hx⟩

set_option maxHeartbeats 1000000 in
/-- C5: every `FeasibilityScore` in the `AnalysisResult` returned by
`analyzeLocation` has a score in [0, 100] and a status that is exactly the
tier implied by the score (feasible at 70 and above, caution at 40 and
above, not_recommended below), provided the distance function is
nonnegative (as the floating-point haversine is). -/
theorem analyzeLocation_scores_ok (dist : QDist) (loc : Location)
    (cfg : RocketConfig) (osmData : Option OSMResponse) (aiOutcome : Option AIOutcome)
    (currentMonth : ℕ) (newId createdAtStr : String)
    (hdist : ∀ a b c d, 0 ≤ dist a b c d) :
    (resultScores (analyzeLocation dist loc cfg osmData aiOutcome currentMonth newId
      createdAtStr)).all scoreOk = true := by
  have hD := assessDevelopmentLevel_bounds dist loc hdist
  have hS := assessPoliticalStability_bounds dist loc hdist
  have hW : 0 ≤ (assessClimate loc).weatherScore ∧ (assessClimate loc).weatherScore ≤ 100 := by
    simp only [assessClimate]
    split_ifs <;> exact ⟨by norm_num, by norm_num⟩
  have hlen : (0 : ℚ) ≤ ((validateZone dist loc osmData).warnings.length : ℚ) :=
    Nat.cast_nonneg _
  have hmat := minClamp_bounds 95
    (60 + assessDevelopmentLevel dist loc * (3 / 10) +
      if cfg.category == RocketCategory.model then (20 : ℚ) else 0)
    (by norm_num) (by norm_num) (by split_ifs <;> linarith [hD.1])
  have hexp := minClamp_bounds 95
    (50 + assessDevelopmentLevel dist loc * (2 / 5) +
      if cfg.safetyLevel == some SafetyLevel.advanced then (15 : ℚ) else 0)
    (by norm_num) (by norm_num) (by split_ifs <;> linarith [hD.1])
  have hfac := minClamp_bounds 95
    (40 + assessDevelopmentLevel dist loc * (1 / 2) +
      if cfg.category == RocketCategory.model then (25 : ℚ) else 0)
    (by norm_num) (by norm_num) (by split_ifs <;> linarith [hD.1])
  have hper := maxClamp_bounds 30
    (70 - ((validateZone dist loc osmData).warnings.length : ℚ) * 15 +
      if cfg.category == RocketCategory.model then (10 : ℚ) else -20)
    (by norm_num) (by norm_num) (by split_ifs <;> linarith [hlen])
  have hreg := maxClamp_bounds 25
    (65 + assessPoliticalStability dist loc * (1 / 5) -
      if cfg.category == RocketCategory.model then (0 : ℚ) else 15)
    (by norm_num) (by norm_num) (by split_ifs <;> linarith [hS.2])
  have hres : 0 ≤ (if (validateZone dist loc osmData).severity == Severity.safe then (85 : ℚ)
        else if (validateZone dist loc osmData).severity == Severity.caution then 55 else 20)
      ∧ (if (validateZone dist loc osmData).severity == Severity.safe then (85 : ℚ)
        else if (validateZone dist loc osmData).severity == Severity.caution then 55 else 20)
        ≤ 100 := by
    constructor <;> split_ifs <;> norm_num
  have htr := minClamp_bounds 90 (70 + if |loc.latitude| < 30 then (10 : ℚ) else -5)
    (by norm_num) (by norm_num) (by split_ifs <;> norm_num)
  have hacc := minClamp_bounds 95 (55 + assessDevelopmentLevel dist loc * (7 / 20))
    (by norm_num) (by norm_num) (by linarith [hD.1])
  have hst : 0 ≤ assessPoliticalStability dist loc
      ∧ assessPoliticalStability dist loc ≤ 100 := ⟨by linarith [hS.1], by linarith [hS.2]⟩
  have hco := minClamp_bounds 90 (50 + assessPoliticalStability dist loc * (2 / 5))
    (by norm_num) (by norm_num) (by linarith [hS.1])
  have hri := minClamp_bounds 95 (85 - (100 - assessPoliticalStability dist loc) * (3 / 10))
    (by norm_num) (by norm_num) (by linarith [hS.1])
  have hsea : 0 ≤ (if (if (0 : ℚ) ≤ loc.latitude
          then decide (5 ≤ currentMonth) && decide (currentMonth ≤ 8)
          else !(decide (5 ≤ currentMonth) && decide (currentMonth ≤ 8)))
        then (80 : ℚ) else 60)
      ∧ (if (if (0 : ℚ) ≤ loc.latitude
          then decide (5 ≤ currentMonth) && decide (currentMonth ≤ 8)
          else !(decide (5 ≤ currentMonth) && decide (currentMonth ≤ 8)))
        then (80 : ℚ) else 60) ≤ 100 := by
    constructor <;> split_ifs <;> norm_num
  have hcc : 0 ≤ (75 : ℚ) ∧ (75 : ℚ) ≤ 100 := ⟨by norm_num, by norm_num⟩
  have hcost : 0 ≤ (if cfg.category == RocketCategory.model then (85 : ℚ)
        else max 30 (40 + assessDevelopmentLevel dist loc * (3 / 10)))
      ∧ (if cfg.category == RocketCategory.model then (85 : ℚ)
        else max 30 (40 + assessDevelopmentLevel dist loc * (3 / 10))) ≤ 100 := by
    constructor <;> split_ifs
    · norm_num
    · exact (maxClamp_bounds 30 (40 + assessDevelopmentLevel dist loc * (3 / 10))
        (by norm_num) (by norm_num) (by linarith [hD.2])).1
    · norm_num
    · exact (maxClamp_bounds 30 (40 + assessDevelopmentLevel dist loc * (3 / 10))
        (by norm_num) (by norm_num) (by linarith [hD.2])).2
  have htim : 0 ≤ (if cfg.category == RocketCategory.model then (90 : ℚ)
        else 50 + assessPoliticalStability dist loc * (3 / 10))
      ∧ (if cfg.category == RocketCategory.model then (90 : ℚ)
        else 50 + assessPoliticalStability dist loc * (3 / 10)) ≤ 100 := by
    constructor <;> split_ifs
    · norm_num
    · linarith [hS.1]
    · norm_num
    · linarith [hS.2]
  have hsucc := maxClamp_bounds 35
    (60 + (if cfg.safetyLevel == some SafetyLevel.advanced then (15 : ℚ)
        else if cfg.safetyLevel == some SafetyLevel.intermediate then 5 else -5)
      + (if (validateZone dist loc osmData).severity == Severity.safe then (10 : ℚ) else -10)
      + (if cfg.category == RocketCategory.model then (10 : ℚ) else -15))
    (by norm_num) (by norm_num) (by split_ifs <;> norm_num)
  rw [List.all_eq_true]
  intro fs hfs
  simp only [analyzeLocation, resultScores, createFS_score, List.mem_cons,
    List.not_mem_nil, or_false] at hfs
  rcases hfs with h|h|h|h|h|h|h|h|h|h|h|h|h|h|h|h|h|h|h|h|h|h|h <;> subst h
  · exact scoreOk_createFS _ _ hmat.1 hmat.2
  · exact scoreOk_createFS _ _ hexp.1 hexp.2
  · exact scoreOk_createFS _ _ hfac.1 hfac.2
  · exact scoreOk_createFS _ _
      (jsRound_nonneg _ (by linarith [hmat.1, hexp.1, hfac.1]))
      (jsRound_le100 _ (by linarith [hmat.2, hexp.2, hfac.2]))
  · exact scoreOk_createFS _ _ hper.1 hper.2
  · exact scoreOk_createFS _ _ hreg.1 hreg.2
  · exact scoreOk_createFS _ _ hres.1 hres.2
  · exact scoreOk_createFS _ _
      (jsRound_nonneg _ (by linarith [hper.1, hreg.1, hres.1]))
      (jsRound_le100 _ (by linarith [hper.2, hreg.2, hres.2]))
  · exact scoreOk_createFS _ _ htr.1 htr.2
  · exact scoreOk_createFS _ _ hW.1 hW.2
  · exact scoreOk_createFS _ _ hacc.1 hacc.2
  · exact scoreOk_createFS _ _
      (jsRound_nonneg _ (by linarith [htr.1, hW.1, hacc.1]))
      (jsRound_le100 _ (by linarith [htr.2, hW.2, hacc.2]))
  · exact scoreOk_createFS _ _ hst.1 hst.2
  · exact scoreOk_createFS _ _ hco.1 hco.2
  · exact scoreOk_createFS _ _ hri.1 hri.2
  · exact scoreOk_createFS _ _
      (jsRound_nonneg _ (by linarith [hst.1, hco.1, hri.1]))
      (jsRound_le100 _ (by linarith [hst.2, hco.2, hri.2]))
  · exact scoreOk_createFS _ _ hsea.1 hsea.2
  · exact scoreOk_createFS _ _ hcc.1 hcc.2
  · exact scoreOk_createFS _ _
      (jsRound_nonneg _ (by linarith [hsea.1, hcc.1]))
      (jsRound_le100 _ (by linarith [hsea.2, hcc.2]))
  · exact scoreOk_createFS _ _ hcost.1 hcost.2
  · exact scoreOk_createFS _ _ htim.1 htim.2
  · exact scoreOk_createFS _ _ hsucc.1 hsucc.2
  · exact scoreOk_createFS _ _
      (jsRound_nonneg _ (by linarith [hcost.1, htim.1, hsucc.1]))
      (jsRound_le100 _ (by linarith [hcost.2, htim.2, hsucc.2]))

theorem analyzeLocation_scores_ok_witness :
    (resultScores (analyzeLocation (fun _ _ _ _ => 0) testLoc
      { category := RocketCategory.model } (some ⟨[]⟩) none 0 "analysis-id"
      "2024-01-01T00:00:00.000Z")).all scoreOk = true :=
  analyzeLocation_scores_ok (fun _ _ _ _ => 0) testLoc
    { category := RocketCategory.model } (some ⟨[]⟩) none 0 "analysis-id"
    "2024-01-01T00:00:00.000Z" (fun _ _ _ _ => le_refl 0)

theorem append_ne_empty_left (s t : String) (h : s ≠ "") : s ++ t ≠ "" := by
  intro hc
  have hd := congrArg String.data hc
  rw [String.data_append] at hd
  exact h (String.ext (List.append_eq_nil.mp hd).1)

theorem jsOrD_ne_empty (o : Option String) (d : String) (hd : d ≠ "") : jsOrD o d ≠ "" := by
  cases o with
  | none => exact hd
  | some s =>
    show (if (s == "") = true then d else s) ≠ ""
    split_ifs with h
    · exact hd
    · intro hc
      rw [hc] at h
      exact h rfl

theorem jsOrStr_ne_empty (s d : String) (hd : d ≠ "") : jsOrStr s d ≠ "" := by
  show (if (s == "") = true then d else s) ≠ ""
  split_ifs with h
  · exact hd
  · intro hc
    rw [hc] at h
    exact h rfl

theorem analyzeLocationWithAI_nonempty (ld : LocationData) (outcome : Option AIOutcome) :
    (analyzeLocationWithAI ld outcome).resourcesInsight ≠ ""
    ∧ (analyzeLocationWithAI ld outcome).legalInsight ≠ ""
    ∧ (analyzeLocationWithAI ld outcome).geographicalInsight ≠ ""
    ∧ (analyzeLocationWithAI ld outcome).geopoliticalInsight ≠ ""
    ∧ (analyzeLocationWithAI ld outcome).recommendation ≠ "" := by
  cases outcome with
  | some r =>
    simp only [analyzeLocationWithAI]
    exact ⟨jsOrD_ne_empty _ _ (by decide), jsOrD_ne_empty _ _ (by decide),
      jsOrD_ne_empty _ _ (by decide), jsOrD_ne_empty _ _ (by decide),
      jsOrD_ne_empty _ _ (by decide)⟩
  | none =>
    simp only [analyzeLocationWithAI]
    refine ⟨?_, ?_, ?_, ?_, ?_⟩
    · exact append_ne_empty_left _ _ (append_ne_empty_left _ _
        (append_ne_empty_left _ _ (append_ne_empty_left _ _ (by decide))))
    · split
      · decide
      · exact append_ne_empty_left _ _ (append_ne_empty_left _ _ (by decide))
    · exact append_ne_empty_left _ _ (append_ne_empty_left _ _
        (append_ne_empty_left _ _ (append_ne_empty_left _ _ (by decide))))
    · split
      · exact append_ne_empty_left _ _ (append_ne_empty_left _ _ (by decide))
      · decide
    · split
      · decide
      · exact append_ne_empty_left _ _ (append_ne_empty_left _ _ (by decide))

theorem createFS_details (q : ℚ) (s : String) : (createFeasibilityScore q s).details = s := rfl

set_option maxHeartbeats 1000000 in
/-- C6: `analyzeLocation` is total over its embedded inputs (it returns a
complete `AnalysisResult` for every provider outcome), and even when the
narrative provider fails (`aiOutcome = none`) — or returns empty fields —
the recommendation and every category-detail string are populated with
nonempty (fallback) text. -/
theorem analyzeLocation_narrative_fallback (dist : QDist) (loc : Location)
    (cfg : RocketConfig) (osmData : Option OSMResponse) (aiOutcome : Option AIOutcome)
    (currentMonth : ℕ) (newId createdAtStr : String) :
    (((analyzeLocation dist loc cfg osmData aiOutcome currentMonth newId
        createdAtStr).recommendation == "") = false)
    ∧ ((resultScores (analyzeLocation dist loc cfg osmData aiOutcome currentMonth newId
        createdAtStr)).any (fun fs => fs.details == "") = false) := by
  constructor
  · show ((jsOrStr _ _ == "") = false)
    simp only [beq_eq_false_iff_ne]
    exact jsOrStr_ne_empty _ _ (by decide)
  · rw [List.any_eq_false]
    intro fs hfs
    simp only [analyzeLocation, resultScores, createFS_details, List.mem_cons,
      List.not_mem_nil, or_false] at hfs
    simp only [Bool.not_eq_true, beq_eq_false_iff_ne]
    rcases hfs with h|h|h|h|h|h|h|h|h|h|h|h|h|h|h|h|h|h|h|h|h|h|h <;> subst h <;>
      simp only [createFS_details]
    · exact (analyzeLocationWithAI_nonempty _ _).1
    · exact (analyzeLocationWithAI_nonempty _ _).1
    · exact (analyzeLocationWithAI_nonempty _ _).1
    · exact (analyzeLocationWithAI_nonempty _ _).1
    · exact (analyzeLocationWithAI_nonempty _ _).2.1
    · exact (analyzeLocationWithAI_nonempty _ _).2.1
    · exact (analyzeLocationWithAI_nonempty _ _).2.1
    · exact (analyzeLocationWithAI_nonempty _ _).2.1
    · exact (analyzeLocationWithAI_nonempty _ _).2.2.1
    · exact (analyzeLocationWithAI_nonempty _ _).2.2.1
    · exact (analyzeLocationWithAI_nonempty _ _).2.2.1
    · exact (analyzeLocationWithAI_nonempty _ _).2.2.1
    · exact (analyzeLocationWithAI_nonempty _ _).2.2.2.1
    · exact (analyzeLocationWithAI_nonempty _ _).2.2.2.1
    · exact (analyzeLocationWithAI_nonempty _ _).2.2.2.1
    · exact (analyzeLocationWithAI_nonempty _ _).2.2.2.1
    · split_ifs <;> decide
    · decide
    · decide
    · split_ifs <;> decide
    · split_ifs <;> decide
    · decide
    · decide

theorem dbSave_foldl (rows : List (AnalysisResult × ℕ)) :
    ∀ init : List SavedRow,
      rows.foldl (fun st p => dbSaveAnalysis st p.1 p.2) init
        = init ++ rows.map (fun p =>
            { analysisId := p.1.id, sessionId := none, createdAt := p.2,
              analysisData := p.1 }) := by
  induction rows with
  | nil =>
    intro init
    simp
  | cons a rest ih =>
    intro init
    simp only [List.foldl_cons, List.map_cons]
    rw [ih]
    simp [dbSaveAnalysis, List.append_assoc]

theorem insertDesc_all_lt (r : SavedRow) (l : List SavedRow)
    (h : ∀ x ∈ l, r.createdAt < x.createdAt) : insertDesc r l = l ++ [r] := by
  induction l with
  | nil => rfl
  | cons x xs ih =>
    have hx := h x (List.mem_cons_self _ _)
    simp only [insertDesc, if_neg (by omega : ¬ x.createdAt ≤ r.createdAt)]
    rw [ih (fun y hy => h y (List.mem_cons_of_mem _ hy))]
    simp

theorem sortDesc_strict_incr (l : List SavedRow)
    (h : l.Pairwise (fun a b => a.createdAt < b.createdAt)) :
    sortDescByCreated l = l.reverse := by
  induction l with
  | nil => rfl
  | cons x xs ih =>
    rw [List.pairwise_cons] at h
    show insertDesc x (List.foldr insertDesc [] xs) = (x :: xs).reverse
    rw [show List.foldr insertDesc [] xs = sortDescByCreated xs from rfl, ih h.2]
    rw [insertDesc_all_lt x xs.reverse (fun y hy => h.1 y (List.mem_reverse.mp hy))]
    simp

theorem memSave_foldl (as : List AnalysisResult) :
    ∀ st : List (String × AnalysisResult),
      (∀ a ∈ as, ∀ p ∈ st, p.1 ≠ a.id) →
      (as.map (fun a => a.id)).Nodup →
      as.foldl memSaveAnalysis st = st ++ as.map (fun a => (a.id, a)) := by
  induction as with
  | nil =>
    intro st _ _
    simp
  | cons a rest ih =>
    intro st hfresh hnodup
    rw [List.map_cons, List.nodup_cons] at hnodup
    simp only [List.foldl_cons, List.map_cons]
    have hnotin : st.any (fun p => p.1 == a.id) = false := by
      rw [List.any_eq_false]
      intro p hp
      simp only [beq_iff_eq]
      exact hfresh a (List.mem_cons_self _ _) p hp
    have hsave : memSaveAnalysis st a = st ++ [(a.id, a)] := by
      unfold memSaveAnalysis mapSet
      rw [if_neg (by simp [hnotin])]
    rw [hsave, ih (st ++ [(a.id, a)]) ?_ hnodup.2]
    · simp [List.append_assoc]
    · intro b hb p hp
      rcases List.mem_append.mp hp with hp1 | hp2
      · exact hfresh b (List.mem_cons_of_mem _ hb) p hp1
      · have hpe : p = (a.id, a) := List.mem_singleton.mp hp2
        subst hpe
        show a.id ≠ b.id
        intro he
        apply hnodup.1
        rw [he]
        exact List.mem_map_of_mem _ hb

/-- A concrete analysis saved first in the storage counterexample. -/
def resultA : AnalysisResult :=
  analyzeLocation (fun _ _ _ _ => 0) testLoc { category := RocketCategory.model }
    (some ⟨[]⟩) none 0 "analysis-a" "2024-01-01T00:00:00.000Z"

/-- A concrete analysis saved second in the storage counterexample. -/
def resultB : AnalysisResult :=
  analyzeLocation (fun _ _ _ _ => 0) testLoc { category := RocketCategory.model }
    (some ⟨[]⟩) none 0 "analysis-b" "2024-01-02T00:00:00.000Z"

/-- C9 counterexample: `MemStorage.getAllAnalyses` returns the `Map` values
in insertion order — after saving `resultA` then `resultB` the listing's id
sequence is `["analysis-a", "analysis-b"]`, not the newest-first
`[resultB, resultA]`. -/
theorem memStorage_not_newest_first_counterexample :
    (memGetAllAnalyses (memSaveAnalysis (memSaveAnalysis [] resultA) resultB)).map
        (fun r => r.id) = ["analysis-a", "analysis-b"]
    ∧ memGetAllAnalyses (memSaveAnalysis (memSaveAnalysis [] resultA) resultB)
      ≠ [resultB, resultA] := by
  have h : (memGetAllAnalyses (memSaveAnalysis (memSaveAnalysis [] resultA) resultB)).map
      (fun r => r.id) = ["analysis-a", "analysis-b"] := by decide
  refine ⟨h, fun hc => ?_⟩
  rw [hc] at h
  exact absurd h (by decide)

/-- C9 amended: `DatabaseStorage.getAllAnalyses` lists analyses newest-first
(saves with strictly increasing timestamps come back in reverse save
order), while `MemStorage.getAllAnalyses` returns them in insertion order
(oldest first) when the saved ids are distinct. -/
theorem storage_listing_order (rows : List (AnalysisResult × ℕ)) (as : List AnalysisResult)
    (hmono : rows.Pairwise (fun p q => p.2 < q.2))
    (hids : (as.map (fun a => a.id)).Nodup) :
    dbGetAllAnalyses (rows.foldl (fun st p => dbSaveAnalysis st p.1 p.2) []) none
      = (rows.map (fun p => p.1)).reverse
    ∧ memGetAllAnalyses (as.foldl memSaveAnalysis []) = as := by
  constructor
  · unfold dbGetAllAnalyses
    rw [dbSave_foldl rows []]
    simp only [List.nil_append]
    rw [sortDesc_strict_incr _ (by
      rw [List.pairwise_map]
      exact hmono)]
    rw [List.map_reverse, List.map_map]
    rfl
  · rw [memSave_foldl as [] (fun a _ p hp => absurd hp (List.not_mem_nil p)) hids]
    unfold memGetAllAnalyses
    rw [List.nil_append, List.map_map]
    exact List.map_id as

theorem storage_listing_order_witness :
    dbGetAllAnalyses ([(resultA, 1), (resultB, 2)].foldl
        (fun st p => dbSaveAnalysis st p.1 p.2) []) none
      = ([(resultA, 1), (resultB, 2)].map (fun p => p.1)).reverse
    ∧ memGetAllAnalyses ([resultA, resultB].foldl memSaveAnalysis []) = [resultA, resultB] :=
  storage_listing_order [(resultA, 1), (resultB, 2)] [resultA, resultB]
    (by decide) (by decide)
